import Mathlib

/- Shallow embedding of the discovery, caching and aggregation core of
tailscalesd.  Go slices become lists, machine timestamps become naturals
(`now` stands for the value of time.Now() at the corresponding read), and
the mutable cache state of a rate-limited discoverer is passed explicitly.
Each definition is translated from the named Go source file. -/

/-- Device record of the device model (the `Device` struct).  Field defaults
are the Go zero values, so a partial literal matches a Go composite literal. -/
structure Device where
  addresses : List String := []
  api : String := ""
  authorized : Bool := false
  clientVersion : String := ""
  hostname : String := ""
  id : String := ""
  name : String := ""
  os : String := ""
  tailnet : String := ""
  tags : List String := []
deriving Repr, DecidableEq

/-- Error value produced by RateLimitedDiscoverer (ratelimited.go): the only
error it ever returns is fmt.Errorf wrapping the errStaleResults sentinel
around the underlying cause, so the type records exactly that shape. -/
inductive DiscoveryError where
  | staleResults (cause : String)
deriving Repr, DecidableEq

/-- The predicate errors.Is(err, errStaleResults) restricted to the errors a
RateLimitedDiscoverer can produce. -/
def DiscoveryError.isStale : DiscoveryError → Bool
  | .staleResults _ => true

/-- Mutable state of a RateLimitedDiscoverer (ratelimited.go).  `wrapCalls`
is model instrumentation counting invocations of the wrapped source's
Devices method; it is not a field of the Go struct.  The wrapped source
itself is modelled as a function from the invocation index to the Go pair
(devices, error) that invocation returns. -/
structure RateLimitedDiscoverer where
  frequency : Nat
  earliest : Nat := 0
  last : List Device := []
  wrapCalls : Nat := 0
deriving Repr, DecidableEq

/-- RateLimitedDiscoverer.refreshDevices from ratelimited.go.  On a wrapped
error it returns the failed call's device slice together with the stale
wrap and leaves `last` and `earliest` untouched; on success it stores the
new devices and pushes the deadline to now + Frequency. -/
def RateLimitedDiscoverer.refreshDevices (c : RateLimitedDiscoverer)
    (wrap : Nat → List Device × Option String) (now : Nat) :
    (List Device × Option DiscoveryError) × RateLimitedDiscoverer :=
  let devices := (wrap c.wrapCalls).1
  let c' : RateLimitedDiscoverer := { c with wrapCalls := c.wrapCalls + 1 }
  match (wrap c.wrapCalls).2 with
  | some cause => ((devices, some (.staleResults cause)), c')
  | none =>
      ((devices, none), { c' with last := devices, earliest := now + c.frequency })

/-- RateLimitedDiscoverer.Devices from ratelimited.go.  `expired` is
time.Now().After(c.earliest), a strict comparison; the read-locked copy of
`last` is a list value here, so the defensive copy is implicit. -/
def RateLimitedDiscoverer.devices (c : RateLimitedDiscoverer)
    (wrap : Nat → List Device × Option String) (now : Nat) :
    (List Device × Option DiscoveryError) × RateLimitedDiscoverer :=
  if c.earliest < now then c.refreshDevices wrap now
  else ((c.last, none), c)

/-- A wrapped source that fails on every invocation, returning the Go zero
slice (nil) next to the error, as the test double in ratelimited_test.go
does. -/
def failingWrap : Nat → List Device × Option String :=
  fun _ => ([], some "this is a test error")

/-- A wrapped source that succeeds on every invocation with one device. -/
def okWrap : Nat → List Device × Option String :=
  fun _ => ([{ id := "id" }], none)

/- MultiDiscoverer (multi.go).  Each wrapped discoverer is modelled by the
(devices, error) pair its Devices call returns; the Go error is an Option
String.  The goroutine for slot i writes that pair into the exclusively
owned slot i of a pre-sized results array; a completion schedule lists slot
indices in the order the goroutines finish, and wg.Wait corresponds to the
schedule being a permutation of all slot indices.  The joined error built
by errors.Join is modelled as the list of the error strings in slot order,
the empty list standing for the nil error. -/

/-- The writes into the results array performed by the goroutines of
MultiDiscoverer.Devices, in completion order `sched`.  An unwritten slot is
`none`. -/
def writeResults (ds : List (List Device × Option String)) (sched : List Nat)
    (results : List (Option (List Device × Option String))) :
    List (Option (List Device × Option String)) :=
  sched.foldl (fun acc i =>
    match ds[i]? with
    | some r => acc.set i (some r)
    | none => acc) results

/-- The results array of MultiDiscoverer.Devices after the goroutines have
run in completion order `sched`, starting from the pre-sized array. -/
def scatterResults (ds : List (List Device × Option String)) (sched : List Nat) :
    List (Option (List Device × Option String)) :=
  writeResults ds sched (List.replicate ds.length none)

/-- The collection loop of MultiDiscoverer.Devices: per slot in index order,
a non-nil error is joined onto errs and the slot's devices are appended onto
ret.  A slot that was never written holds the Go zero discoveryResult. -/
def gatherResults (results : List (Option (List Device × Option String))) :
    List Device × List String :=
  results.foldl
    (fun acc r =>
      (acc.1 ++ (r.getD ([], none)).1, acc.2 ++ ((r.getD ([], none)).2).toList))
    ([], [])

/-- MultiDiscoverer.Devices from multi.go, for a given completion order of
the concurrent sub-calls. -/
def multiDiscovererDevices (ds : List (List Device × Option String))
    (sched : List Nat) : List Device × List String :=
  gatherResults (scatterResults ds sched)

/- Model of the parts of Go's net package used by filterIPv6Addresses in
tailscalesd.go: net.ParseIP, IP.To4 and IP.String on a 4-byte value.  An IP
is a list of byte values; ParseIP yields the 16-byte representation, with a
dotted quad mapped into the IPv4-in-IPv6 form exactly as net.IPv4 does. -/

/-- Loop of Go's dtoi: parse a decimal number from the head of the string,
returning the value and the count of characters consumed; failure when no
digit is present or the value reaches the 0xFFFFFF cutoff. -/
def dtoiAux : List Char → Nat → Nat → Option (Nat × Nat)
  | [], n, i => if i = 0 then none else some (n, i)
  | ch :: rest, n, i =>
      if '0' ≤ ch ∧ ch ≤ '9' then
        let n2 := n * 10 + (ch.toNat - '0'.toNat)
        if n2 ≥ 0xFFFFFF then none else dtoiAux rest n2 (i + 1)
      else if i = 0 then none else some (n, i)

/-- Go's dtoi. -/
def dtoi (s : List Char) : Option (Nat × Nat) :=
  dtoiAux s 0 0

/-- Loop of Go's xtoi: as dtoi, in hexadecimal. -/
def xtoiAux : List Char → Nat → Nat → Option (Nat × Nat)
  | [], n, i => if i = 0 then none else some (n, i)
  | ch :: rest, n, i =>
      let hv : Option Nat :=
        if '0' ≤ ch ∧ ch ≤ '9' then some (ch.toNat - '0'.toNat)
        else if 'a' ≤ ch ∧ ch ≤ 'f' then some (ch.toNat - 'a'.toNat + 10)
        else if 'A' ≤ ch ∧ ch ≤ 'F' then some (ch.toNat - 'A'.toNat + 10)
        else none
      match hv with
      | none => if i = 0 then none else some (n, i)
      | some v =>
          let n2 := n * 16 + v
          if n2 ≥ 0xFFFFFF then none else xtoiAux rest n2 (i + 1)

/-- Go's xtoi. -/
def xtoi (s : List Char) : Option (Nat × Nat) :=
  xtoiAux s 0 0

/-- The field loop of Go's parseIPv4, yielding the four byte values: each
field is a decimal ≤ 255 with no extra leading zero, fields after the first
are preceded by a dot, and the whole string must be consumed. -/
def parseIPv4Fields : Nat → List Char → List Nat → Option (List Nat)
  | 0, s, acc => if s = [] then some acc else none
  | fld + 1, s, acc =>
      if s = [] then none
      else
        let afterDot : Option (List Char) :=
          if acc = [] then some s
          else
            match s with
            | '.' :: rest => some rest
            | _ => none
        match afterDot with
        | none => none
        | some s2 =>
            match dtoi s2 with
            | none => none
            | some (n, c) =>
                if n > 0xFF then none
                else if c > 1 ∧ s2.headD ' ' = '0' then none
                else parseIPv4Fields fld (s2.drop c) (acc ++ [n])

/-- The ten zero bytes and two 0xFF bytes net.IPv4 puts before the four
IPv4 bytes. -/
def v4Mapped12 : List Nat :=
  [0, 0, 0, 0, 0, 0, 0, 0, 0, 0, 0xFF, 0xFF]

/-- Go's parseIPv4, producing the 16-byte net.IPv4 representation. -/
def parseIPv4Go (s : List Char) : Option (List Nat) :=
  match parseIPv4Fields 4 s [] with
  | some fields => some (v4Mapped12 ++ fields)
  | none => none

/-- The grouped-hex loop of Go's parseIPv6.  `bytes` is the byte sequence
accumulated so far (its length is the loop index i), `ell` the position of
the ellipsis if one was seen; the fuel starts at 8 and counts the remaining
two-byte groups, standing for the loop condition i < 16. -/
def parseIPv6Loop : Nat → List Char → List Nat → Option Nat →
    Option (List Nat × Option Nat)
  | 0, s, bytes, ell => if s = [] then some (bytes, ell) else none
  | fuel + 1, s, bytes, ell =>
      match xtoi s with
      | none => none
      | some (n, c) =>
          if n > 0xFFFF then none
          else if c < s.length ∧ s.getD c ' ' = '.' then
            (if ell = none ∧ bytes.length ≠ 12 then none
             else if bytes.length + 4 > 16 then none
             else
               match parseIPv4Fields 4 s [] with
               | none => none
               | some ip4 => some (bytes ++ ip4, ell))
          else
            let bytes2 := bytes ++ [n / 256, n % 256]
            let s2 := s.drop c
            if s2 = [] then some (bytes2, ell)
            else
              match s2 with
              | ':' :: rest =>
                  if rest = [] then none
                  else
                    match rest with
                    | ':' :: rest2 =>
                        if ell ≠ none then none
                        else if rest2 = [] then some (bytes2, some bytes2.length)
                        else parseIPv6Loop fuel rest2 bytes2 (some bytes2.length)
                    | _ => parseIPv6Loop fuel rest bytes2 ell
              | _ => none

/-- The post-loop phase of Go's parseIPv6: the ellipsis, if any, expands to
the missing zero bytes; sixteen explicit bytes forbid an ellipsis. -/
def parseIPv6Post : Option (List Nat × Option Nat) → Option (List Nat)
  | none => none
  | some (bytes, ell) =>
      if bytes.length < 16 then
        match ell with
        | none => none
        | some e =>
            some (bytes.take e ++ List.replicate (16 - bytes.length) 0 ++ bytes.drop e)
      else if ell ≠ none then none
      else some bytes

/-- Go's parseIPv6 (zone handling omitted: no target carries a zone). -/
def parseIPv6Go (s : List Char) : Option (List Nat) :=
  match s with
  | ':' :: ':' :: rest =>
      if rest = [] then some (List.replicate 16 0)
      else parseIPv6Post (parseIPv6Loop 8 rest [] (some 0))
  | _ => parseIPv6Post (parseIPv6Loop 8 s [] none)

/-- The dispatch scan of Go's net.ParseIP: the first '.' or ':' decides
whether the string is parsed as IPv4 or IPv6; neither means not an IP. -/
def parseIPScan : List Char → List Char → Option (List Nat)
  | [], _ => none
  | '.' :: _, orig => parseIPv4Go orig
  | ':' :: _, orig => parseIPv6Go orig
  | _ :: rest, orig => parseIPScan rest orig

/-- Go's net.ParseIP. -/
def parseIPGo (s : String) : Option (List Nat) :=
  parseIPScan s.data s.data

/-- Go's IP.To4 on the representations ParseIP can produce. -/
def ipTo4 (ip : List Nat) : Option (List Nat) :=
  if ip.length = 4 then some ip
  else if ip.length = 16 ∧ ip.take 12 = v4Mapped12 then some (ip.drop 12)
  else none

/-- Go's IP.String on a 4-byte value: the dotted-decimal quad. -/
def ipv4DottedQuad (ip : List Nat) : String :=
  String.intercalate "." (ip.map (fun b => toString b))

/-- TargetDescriptor from tailscalesd.go.  The Go label map is modelled as
the association list of its entries. -/
structure TargetDescriptor where
  targets : List String := []
  labels : List (String × String) := []
deriving Repr, DecidableEq

/-- filterEmpty from tailscalesd.go: drop every entry whose key or value is
the empty string.  The nil map and the empty map coincide in the list
model. -/
def filterEmpty (m : List (String × String)) : List (String × String) :=
  m.filter (fun kv => !(kv.1 == "" || kv.2 == ""))

/-- filterIPv6Addresses from tailscalesd.go: a target that does not parse
as an IP is skipped (continue), one with a 4-byte form is appended in
canonical dotted-quad form, a true IPv6 address is dropped; labels carry
over unchanged. -/
def filterIPv6Addresses (td : TargetDescriptor) : TargetDescriptor :=
  { targets :=
      td.targets.filterMap (fun target =>
        match parseIPGo target with
        | none => none
        | some ip =>
            match ipTo4 ip with
            | some ip4 => some (ipv4DottedQuad ip4)
            | none => none),
    labels := td.labels }

/-- filterEmptyLabels from tailscalesd.go. -/
def filterEmptyLabels (td : TargetDescriptor) : TargetDescriptor :=
  { targets := td.targets, labels := filterEmpty td.labels }

/-- The __meta_tailscale_api label key. -/
def LabelMetaAPI : String := "__meta_tailscale_api"

/-- The device-authorized label key. -/
def LabelMetaDeviceAuthorized : String := "__meta_tailscale_device_authorized"

/-- The client-version label key. -/
def LabelMetaDeviceClientVersion : String := "__meta_tailscale_device_client_version"

/-- The hostname label key. -/
def LabelMetaDeviceHostname : String := "__meta_tailscale_device_hostname"

/-- The device-id label key. -/
def LabelMetaDeviceID : String := "__meta_tailscale_device_id"

/-- The device-name label key. -/
def LabelMetaDeviceName : String := "__meta_tailscale_device_name"

/-- The device-os label key. -/
def LabelMetaDeviceOS : String := "__meta_tailscale_device_os"

/-- The tailnet label key. -/
def LabelMetaTailnet : String := "__meta_tailscale_tailnet"

/-- fmt.Sprint of a Go bool. -/
def sprintBool (b : Bool) : String :=
  if b then "true" else "false"

/-- The descriptor translate (tailscalesd.go) builds for one device before
the filters run; the map literal becomes the association list of its
entries in the literal's order. -/
def baseDescriptor (d : Device) : TargetDescriptor :=
  { targets := d.addresses,
    labels := [
      (LabelMetaAPI, d.api),
      (LabelMetaDeviceAuthorized, sprintBool d.authorized),
      (LabelMetaDeviceClientVersion, d.clientVersion),
      (LabelMetaDeviceHostname, d.hostname),
      (LabelMetaDeviceID, d.id),
      (LabelMetaDeviceName, d.name),
      (LabelMetaDeviceOS, d.os),
      (LabelMetaTailnet, d.tailnet)] }

/-- translate from tailscalesd.go (the Go name collides with an existing
Lean declaration): one descriptor per input device, each filter applied in
the given order before the descriptor is appended. -/
def translateDevices (devices : List Device)
    (filters : List (TargetDescriptor → TargetDescriptor)) :
    List TargetDescriptor :=
  devices.map (fun d => filters.foldl (fun t f => f t) (baseDescriptor d))

/-- The error seen by discoveryHandler.ServeHTTP (tailscalesd.go): nil, the
ErrStaleResults sentinel, or any other error with its message.  The check
err != ErrStaleResults in the handler is identity with the sentinel, which
is exactly the value the discoverer in the same file returns for
staleness. -/
inductive HandlerError where
  | staleSentinel
  | other (msg : String)
deriving Repr, DecidableEq

/-- The message text of a handler error, as fmt formats it. -/
def HandlerError.text : HandlerError → String
  | .staleSentinel => "potentially stale results"
  | .other msg => msg

/-- What the handler writes back: the JSON payload of the descriptor list,
or a plain-text failure message. -/
inductive HTTPBody where
  | payload (targets : List TargetDescriptor)
  | message (msg : String)
deriving Repr, DecidableEq

/-- An HTTP response as the recorder in the tests observes it. -/
structure HTTPResponse where
  status : Nat
  body : HTTPBody
deriving Repr, DecidableEq

/-- discoveryHandler.ServeHTTP from tailscalesd.go, as a function of the
(targets, err) result of the top-level DiscoverDevices call.  JSON encoding
of a descriptor list cannot fail in Go, so the encoding-error branch is
unreachable and the 200 body is modelled as the encoded list itself. -/
def serveHTTP (targets : List TargetDescriptor) (err : Option HandlerError) :
    HTTPResponse :=
  match err with
  | some e =>
      if e ≠ HandlerError.staleSentinel then
        { status := 500,
          body := .message ("Failed to discover Tailscale devices: " ++ e.text) }
      else { status := 200, body := .payload targets }
  | none => { status := 200, body := .payload targets }

/-- Unfolding of Devices on the not-expired path. -/
theorem devices_not_expired (c : RateLimitedDiscoverer)
    (wrap : Nat → List Device × Option String) (now : Nat)
    (h : ¬ c.earliest < now) :
    c.devices wrap now = ((c.last, none), c) := by
  simp only [RateLimitedDiscoverer.devices]
  rw [if_neg h]

/-- Unfolding of Devices on the expired path with a failing wrapped call. -/
theorem devices_expired_err (c : RateLimitedDiscoverer)
    (wrap : Nat → List Device × Option String) (now : Nat) (e : String)
    (hexp : c.earliest < now) (herr : (wrap c.wrapCalls).2 = some e) :
    c.devices wrap now =
      (((wrap c.wrapCalls).1, some (.staleResults e)),
        { c with wrapCalls := c.wrapCalls + 1 }) := by
  simp only [RateLimitedDiscoverer.devices]
  rw [if_pos hexp]
  simp only [RateLimitedDiscoverer.refreshDevices]
  rw [herr]

/-- Unfolding of Devices on the expired path with a succeeding wrapped call. -/
theorem devices_expired_ok (c : RateLimitedDiscoverer)
    (wrap : Nat → List Device × Option String) (now : Nat)
    (hexp : c.earliest < now) (hok : (wrap c.wrapCalls).2 = none) :
    c.devices wrap now =
      (((wrap c.wrapCalls).1, none),
        { c with wrapCalls := c.wrapCalls + 1, last := (wrap c.wrapCalls).1, earliest := now + c.frequency }) := by
  simp only [RateLimitedDiscoverer.devices]
  rw [if_pos hexp]
  simp only [RateLimitedDiscoverer.refreshDevices]
  rw [hok]

/-- Claim C1 (code check at the failing input): with the cache primed with
the snapshot [⟨id := "ratelimittest"⟩] and the interval expired, a failing
wrapped source makes Devices return the failed call's nil slice — which is
not the cached snapshot — wrapped in the stale error.  The claim (and the
test named "rate limited discoverer which is expired returns cached results
on error") expects the cached snapshot instead. -/
theorem c1_refresh_error_returns_failed_result :
    (RateLimitedDiscoverer.devices
        { frequency := 5, earliest := 0, last := [{ id := "ratelimittest" }] }
        failingWrap 1).1
      = ([], some (DiscoveryError.staleResults "this is a test error"))
    ∧ ([] : List Device) ≠ [{ id := "ratelimittest" }] := by
  exact ⟨rfl, by decide⟩

/-- Claim C7: when the interval is expired and the wrapped source fails, the
refresh leaves both `last` and `earliest` unchanged, and any Devices call
made no earlier still finds the interval expired and invokes the wrapped
source again. -/
theorem c7_refresh_failure_preserves_state
    (c : RateLimitedDiscoverer) (wrap : Nat → List Device × Option String)
    (now : Nat) (e : String)
    (hexp : c.earliest < now) (herr : (wrap c.wrapCalls).2 = some e) :
    ((c.devices wrap now).2.earliest = c.earliest
      ∧ (c.devices wrap now).2.last = c.last)
    ∧ ∀ now', now ≤ now' →
        ((c.devices wrap now).2.devices wrap now').2.wrapCalls = c.wrapCalls + 2 := by
  have hdev : (c.devices wrap now).2 = { c with wrapCalls := c.wrapCalls + 1 } := by
    rw [devices_expired_err c wrap now e hexp herr]
  refine ⟨⟨by rw [hdev], by rw [hdev]⟩, fun now' hle => ?_⟩
  have hexp' : ({ c with wrapCalls := c.wrapCalls + 1 } :
      RateLimitedDiscoverer).earliest < now' := lt_of_lt_of_le hexp hle
  rw [hdev]
  simp only [RateLimitedDiscoverer.devices]
  rw [if_pos hexp']
  simp only [RateLimitedDiscoverer.refreshDevices]
  cases (wrap ({ c with wrapCalls := c.wrapCalls + 1 } :
      RateLimitedDiscoverer).wrapCalls).2 <;> rfl

/-- Claim C7 witness: the general theorem applied to a concrete expired
cache with a failing wrapped source, instantiated at the following call. -/
theorem c7_refresh_failure_preserves_state_witness :
    ((RateLimitedDiscoverer.devices { frequency := 5 } failingWrap 1).2.earliest = 0
      ∧ (RateLimitedDiscoverer.devices { frequency := 5 } failingWrap 1).2.last = [])
    ∧ ((RateLimitedDiscoverer.devices { frequency := 5 } failingWrap 1).2.devices
        failingWrap 2).2.wrapCalls = 0 + 2 := by
  have h := c7_refresh_failure_preserves_state
    { frequency := 5 } failingWrap 1 "this is a test error" (by decide) rfl
  exact ⟨h.1, h.2 2 (by decide)⟩

/-- Claim C4 (counterexample): with frequency 5 > 0, an initially expired
cache and a wrapped source that fails, two Devices calls in immediate
succession (both at the same instant) invoke the wrapped source twice, not
at most once. -/
theorem c4_two_calls_twice_on_failure :
    0 < (5 : Nat)
    ∧ ((RateLimitedDiscoverer.devices { frequency := 5 } failingWrap 1).2.devices
        failingWrap 1).2.wrapCalls = 2 := by
  exact ⟨by decide, rfl⟩

/-- Claim C4 (amended): for positive frequency, two Devices calls in
immediate succession invoke the wrapped source at most once in total,
provided the wrapped invocation, if one is made, succeeds. -/
theorem c4_two_calls_at_most_one_on_success
    (c : RateLimitedDiscoverer) (wrap : Nat → List Device × Option String)
    (now : Nat) (hfreq : 0 < c.frequency) (hok : (wrap c.wrapCalls).2 = none) :
    ((c.devices wrap now).2.devices wrap now).2.wrapCalls ≤ c.wrapCalls + 1 := by
  by_cases hexp : c.earliest < now
  · generalize hc1 : (c.devices wrap now).2 = c1
    rw [devices_expired_ok c wrap now hexp hok] at hc1
    have he : c1.earliest = now + c.frequency := by rw [← hc1]
    have hw : c1.wrapCalls = c.wrapCalls + 1 := by rw [← hc1]
    rw [devices_not_expired c1 wrap now (by omega)]
    dsimp only
    omega
  · generalize hc1 : (c.devices wrap now).2 = c1
    rw [devices_not_expired c wrap now hexp] at hc1
    dsimp only at hc1
    rw [devices_not_expired c1 wrap now (by rw [← hc1]; exact hexp)]
    dsimp only
    rw [← hc1]
    omega

/-- Claim C4 witness: the amended theorem applied to a concrete cache with a
succeeding wrapped source. -/
theorem c4_two_calls_at_most_one_on_success_witness :
    ((RateLimitedDiscoverer.devices { frequency := 5 } okWrap 1).2.devices
      okWrap 1).2.wrapCalls ≤ 0 + 1 :=
  c4_two_calls_at_most_one_on_success { frequency := 5 } okWrap 1 (by decide) rfl

/-- Writing results preserves the array length. -/
theorem length_writeResults (ds : List (List Device × Option String))
    (sched : List Nat) (results : List (Option (List Device × Option String))) :
    (writeResults ds sched results).length = results.length := by
  induction sched generalizing results with
  | nil => rfl
  | cons j rest ih =>
      simp only [writeResults, List.foldl_cons] at *
      cases h : ds[j]? with
      | none => simp only [h]; exact ih results
      | some r => simp only [h]; rw [ih (results.set j (some r))]; exact List.length_set ..

/-- A slot no goroutine writes keeps its previous content. -/
theorem getElem?_writeResults_not_mem (ds : List (List Device × Option String))
    (sched : List Nat) (results : List (Option (List Device × Option String)))
    (i : Nat) (hi : i ∉ sched) :
    (writeResults ds sched results)[i]? = results[i]? := by
  induction sched generalizing results with
  | nil => rfl
  | cons j rest ih =>
      simp only [List.mem_cons, not_or] at hi
      simp only [writeResults, List.foldl_cons]
      cases h : ds[j]? with
      | none => simp only [h]; exact ih results hi.2
      | some r =>
          simp only [h]
          rw [show (rest.foldl (fun acc i =>
              match ds[i]? with
              | some r => acc.set i (some r)
              | none => acc) (results.set j (some r))) =
            writeResults ds rest (results.set j (some r)) from rfl]
          rw [ih (results.set j (some r)) hi.2]
          exact List.getElem?_set_ne (fun hji => hi.1 hji.symm)

/-- A slot some goroutine writes ends up holding its discoverer's result. -/
theorem getElem?_writeResults_mem (ds : List (List Device × Option String))
    (sched : List Nat) (results : List (Option (List Device × Option String)))
    (i : Nat) (hlen : results.length = ds.length) (hmem : i ∈ sched)
    (hi : i < ds.length) :
    (writeResults ds sched results)[i]? = some ds[i]? := by
  induction sched generalizing results with
  | nil => cases hmem
  | cons j rest ih =>
      simp only [writeResults, List.foldl_cons]
      by_cases hrest : i ∈ rest
      · cases h : ds[j]? with
        | none => simp only [h]; exact ih results hlen hrest
        | some r =>
            simp only [h]
            exact ih (results.set j (some r))
              (by rw [List.length_set]; exact hlen) hrest
      · have hij : i = j := by
          rcases List.mem_cons.mp hmem with h | h
          · exact h
          · exact absurd h hrest
        subst hij
        have h : ds[i]? = some (ds.get ⟨i, hi⟩) := List.getElem?_eq_getElem hi
        simp only [h]
        rw [show (rest.foldl (fun acc k =>
            match ds[k]? with
            | some r => acc.set k (some r)
            | none => acc) (results.set i (some (ds.get ⟨i, hi⟩)))) =
          writeResults ds rest (results.set i (some (ds.get ⟨i, hi⟩))) from rfl]
        rw [getElem?_writeResults_not_mem ds rest _ i hrest]
        exact List.getElem?_set_self (by rw [hlen]; exact hi)

/-- After any complete schedule (a permutation of all slot indices), the
results array holds exactly the per-discoverer results, slot i from
discoverer i, whatever the completion order was. -/
theorem scatterResults_perm (ds : List (List Device × Option String))
    (sched : List Nat) (hperm : sched.Perm (List.range ds.length)) :
    scatterResults ds sched = ds.map some := by
  apply List.ext_getElem?
  intro n
  by_cases hn : n < ds.length
  · have hmem : n ∈ sched := hperm.mem_iff.mpr (List.mem_range.mpr hn)
    rw [scatterResults, getElem?_writeResults_mem ds sched _ n
      (List.length_replicate ..) hmem hn]
    rw [List.getElem?_map, List.getElem?_eq_getElem hn]
    rfl
  · have h1 : (scatterResults ds sched)[n]? = none := by
      apply List.getElem?_eq_none
      rw [scatterResults, length_writeResults, List.length_replicate]
      omega
    have h2 : (ds.map some)[n]? = none := by
      apply List.getElem?_eq_none
      rw [List.length_map]
      omega
    rw [h1, h2]

/-- The collection loop on a fully written results array concatenates the
device slices in slot order and joins the non-nil errors in slot order. -/
theorem gatherResults_map_some (ds : List (List Device × Option String)) :
    gatherResults (ds.map some) = ((ds.map Prod.fst).flatten, ds.filterMap Prod.snd) := by
  suffices h : ∀ acc : List Device × List String,
      (ds.map some).foldl
        (fun acc r =>
          (acc.1 ++ (r.getD ([], none)).1, acc.2 ++ ((r.getD ([], none)).2).toList)) acc
        = (acc.1 ++ (ds.map Prod.fst).flatten, acc.2 ++ ds.filterMap Prod.snd) by
    have h0 := h ([], [])
    simp only [List.nil_append] at h0
    exact h0
  induction ds with
  | nil => intro acc; simp [gatherResults]
  | cons d rest ih =>
      intro acc
      simp only [List.map_cons, List.foldl_cons, Option.getD_some]
      rw [ih]
      cases h2 : d.2 <;>
        simp [List.filterMap_cons, h2, List.flatten_cons, List.append_assoc]

/-- Claim C6: for every registration list and every completion order of the
concurrent sub-calls, the merged device list is the concatenation of the
per-discoverer device slices in slots 0..N-1 in registration order, and it
is therefore independent of the completion order. -/
theorem c6_multi_merge_order (ds : List (List Device × Option String))
    (sched : List Nat) (hperm : sched.Perm (List.range ds.length)) :
    (multiDiscovererDevices ds sched).1 = (ds.map Prod.fst).flatten
    ∧ ∀ sched', sched'.Perm (List.range ds.length) →
        (multiDiscovererDevices ds sched').1 = (multiDiscovererDevices ds sched).1 := by
  have h : ∀ s, s.Perm (List.range ds.length) →
      multiDiscovererDevices ds s = ((ds.map Prod.fst).flatten, ds.filterMap Prod.snd) := by
    intro s hs
    rw [multiDiscovererDevices, scatterResults_perm ds s hs, gatherResults_map_some]
  exact ⟨by rw [h sched hperm], fun s' hs' => by rw [h s' hs', h sched hperm]⟩

/-- Claim C6 witness: three registered discoverers each returning one
device, with the completion order 2, 0, 1, still merge in registration
order. -/
theorem c6_multi_merge_order_witness :
    (multiDiscovererDevices
      [([{ id := "A" }], none), ([{ id := "B" }], none), ([{ id := "C" }], none)]
      [2, 0, 1]).1
      = [{ id := "A" }, { id := "B" }, { id := "C" }] := by
  have h := c6_multi_merge_order
    [([{ id := "A" }], none), ([{ id := "B" }], none), ([{ id := "C" }], none)]
    [2, 0, 1] (by decide)
  rw [h.1]
  rfl

/-- Claim C5: best-effort aggregation — under any complete schedule, every
device of every succeeding discoverer is in the merged list, and the
returned error is the join, in slot order, of all errors encountered. -/
theorem c5_multi_best_effort (ds : List (List Device × Option String))
    (sched : List Nat) (hperm : sched.Perm (List.range ds.length))
    (_hsucc : ∃ i, ∃ h : i < ds.length, (ds.get ⟨i, h⟩).2 = none)
    (_hfail : ∃ j, ∃ h : j < ds.length, (ds.get ⟨j, h⟩).2 ≠ none) :
    (∀ i, ∀ h : i < ds.length, (ds.get ⟨i, h⟩).2 = none →
        ∀ d ∈ (ds.get ⟨i, h⟩).1, d ∈ (multiDiscovererDevices ds sched).1)
    ∧ (multiDiscovererDevices ds sched).2 = ds.filterMap Prod.snd := by
  have h : multiDiscovererDevices ds sched
      = ((ds.map Prod.fst).flatten, ds.filterMap Prod.snd) := by
    rw [multiDiscovererDevices, scatterResults_perm ds sched hperm, gatherResults_map_some]
  rw [h]
  refine ⟨fun i hi _ d hd => ?_, rfl⟩
  exact List.mem_flatten.mpr
    ⟨(ds.get ⟨i, hi⟩).1, List.mem_map.mpr ⟨ds.get ⟨i, hi⟩, List.get_mem .., rfl⟩, hd⟩

/-- Claim C5 witness: one succeeding and one failing discoverer; the
succeeding discoverer's device is still returned and the joined error holds
the failure. -/
theorem c5_multi_best_effort_witness :
    ({ id := "A" } : Device)
      ∈ (multiDiscovererDevices [([{ id := "A" }], none), ([], some "boom")] [1, 0]).1
    ∧ (multiDiscovererDevices [([{ id := "A" }], none), ([], some "boom")] [1, 0]).2
      = ["boom"] := by
  have h := c5_multi_best_effort [([{ id := "A" }], none), ([], some "boom")] [1, 0]
    (by decide) ⟨0, by decide, rfl⟩ ⟨1, by decide, by decide⟩
  exact ⟨h.1 0 (by decide) rfl _ (by decide), by rw [h.2]; rfl⟩

/-- Claim C2 (code check at the failing input): the IPv6-exclusion filter on
the targets ["100.2.3.4", "GARBAGE", "fd7a::1234"] keeps the IPv4 address
and drops the IPv6 literal, but it also drops the non-parsing string
"GARBAGE" (the loop skips any target net.ParseIP rejects), so the result is
["100.2.3.4"] instead of the claimed ["100.2.3.4", "GARBAGE"]. -/
theorem c2_filterIPv6_drops_garbage :
    filterIPv6Addresses
        { targets := ["100.2.3.4", "GARBAGE", "fd7a::1234"], labels := [("k", "v")] }
      = { targets := ["100.2.3.4"], labels := [("k", "v")] }
    ∧ (["100.2.3.4"] : List String) ≠ ["100.2.3.4", "GARBAGE"] := by
  exact ⟨rfl, by decide⟩

/-- Claim C10: filterIPv6Addresses rewrites only the Targets field; the
Labels mapping of the returned descriptor is the input's, unchanged. -/
theorem c10_filterIPv6_labels_frame (td : TargetDescriptor) :
    (filterIPv6Addresses td).labels = td.labels := rfl

/-- Claim C8: translate emits exactly one descriptor per input device for
every filter list — tag count never multiplies descriptors — and the empty
device list yields the empty output. -/
theorem c8_translate_length (devices : List Device)
    (filters : List (TargetDescriptor → TargetDescriptor)) :
    (translateDevices devices filters).length = devices.length
    ∧ translateDevices [] filters = [] := by
  constructor
  · simp [translateDevices]
  · rfl

/-- Claim C9: the empty-label filter keeps exactly the entries whose key and
value are both non-empty, so no empty key or value ever survives; in
particular the mapping {"": "x", "a": "", "b": "c"} filters to {"b": "c"},
also through filterEmptyLabels. -/
theorem c9_filterEmpty_exact :
    (∀ m : List (String × String), ∀ k v : String,
        (k, v) ∈ filterEmpty m ↔ (k, v) ∈ m ∧ k ≠ "" ∧ v ≠ "")
    ∧ filterEmpty [("", "x"), ("a", ""), ("b", "c")] = [("b", "c")]
    ∧ (filterEmptyLabels
        { targets := [], labels := [("", "x"), ("a", ""), ("b", "c")] }).labels
      = [("b", "c")] := by
  refine ⟨fun m k v => ?_, rfl, rfl⟩
  simp [filterEmpty, List.mem_filter, and_assoc]

/-- Claim C3: ServeHTTP replies 200 with the returned (possibly stale)
descriptor payload exactly when the error is nil or the stale sentinel, and
replies 500 with a human-readable message and no payload on every other
non-nil error. -/
theorem c3_handler_status_policy (targets : List TargetDescriptor)
    (err : Option HandlerError) :
    ((serveHTTP targets err).status = 200
        ∧ (serveHTTP targets err).body = .payload targets
      ↔ err = none ∨ err = some HandlerError.staleSentinel)
    ∧ ∀ m, err = some (HandlerError.other m) →
        (serveHTTP targets err).status = 500
        ∧ (serveHTTP targets err).body
            = .message ("Failed to discover Tailscale devices: " ++ m) := by
  constructor
  · cases err with
    | none => simp [serveHTTP]
    | some e =>
        cases e with
        | staleSentinel => simp [serveHTTP]
        | other m => simp [serveHTTP, HandlerError.text]
  · intro m hm
    subst hm
    simp [serveHTTP, HandlerError.text]

/-- Claim C3 witness: the policy applied to a concrete hard failure and to a
concrete stale result. -/
theorem c3_handler_status_policy_witness :
    (serveHTTP [] (some (HandlerError.other "boom"))).status = 500
    ∧ ((serveHTTP [{ targets := ["t"] }] (some HandlerError.staleSentinel)).status = 200
        ∧ (serveHTTP [{ targets := ["t"] }] (some HandlerError.staleSentinel)).body
            = .payload [{ targets := ["t"] }]) := by
  refine ⟨((c3_handler_status_policy [] (some (HandlerError.other "boom"))).2
    "boom" rfl).1, ?_⟩
  exact (c3_handler_status_policy [{ targets := ["t"] }]
    (some HandlerError.staleSentinel)).1.mpr (Or.inr rfl)
